import Mathlib

set_option autoImplicit false

/-!
Shallow embedding of `project/techtrends/app.py`: a small Flask application
over a single-table sqlite store.  The data-access layer (`DatabaseWrapper`
with its process-wide `db_connection_count`, the context-managed connection,
the two repository reads) and the request handlers (`index`, `post`, `about`,
`create`, `healthz`, `metrics_endpoint`) are translated here as pure state
transformers; raised Python exceptions become `Except` errors tagged with the
relevant exception class.
-/

namespace TechTrends

/-- A row of the `posts` table: `id` (primary key), `title`, `content`. -/
structure Post where
  id : Nat
  title : String
  content : String
  deriving Repr, DecidableEq

/-- The Python exception classes the application's paths can raise:
`sqlite3.OperationalError`, any other `sqlite3.DatabaseError`, a `KeyError`
from a missing form field, and the `UnboundLocalError` raised by the
`finally` clause of `get_db_connection` when `sqlite3.connect` itself failed
(so the local `connection` was never bound when `connection.close()` runs). -/
inductive PyErr where
  | operationalError (msg : String)
  | databaseError (msg : String)
  | keyError (key : String)
  | unboundLocalError
  deriving Repr, DecidableEq

/-- A positional SQL parameter, as passed in the `params` tuple. -/
inductive SqlParam where
  | int (n : Nat)
  | text (s : String)
  deriving Repr, DecidableEq

/-- A SQL statement: the literal SQL text plus the positionally bound
parameters, exactly as handed to `conn.execute(sql, params)`. -/
structure Stmt where
  sql : String
  params : List SqlParam
  deriving Repr, DecidableEq

/-- The persisted contents of `database.db`: the `posts` table when it
exists (`none` models the schema being absent), and the next
autoincrement id. -/
structure DbFile where
  table : Option (List Post)
  nextId : Nat
  deriving Repr, DecidableEq

/-- The store as seen by the application: `connectErr` means
`sqlite3.connect('database.db')` raises `sqlite3.OperationalError msg`;
`execErr` means every statement raises a lower-level
`sqlite3.DatabaseError msg` (e.g. a corrupt database image); `file` is the
persisted contents. -/
structure Store where
  connectErr : Option String
  execErr : Option String
  file : DbFile
  deriving Repr, DecidableEq

/-- An open sqlite connection: uncommitted statement effects accumulate in
`pending`; `committed` is what survives `connection.close()`. -/
structure Conn where
  execErr : Option String
  pending : DbFile
  committed : DbFile
  deriving Repr, DecidableEq

/-- `conn.commit()`: publish the pending effects. -/
def Conn.commit (c : Conn) : Conn :=
  { c with committed := c.pending }

/-- A cursor, as much of `sqlite3.Cursor` as the application consumes:
row lists for `SELECT *`, the single aggregate for `COUNT(*)`, the probe
result for `SELECT 1 FROM posts LIMIT 1`, and the empty cursor of an
`INSERT`. -/
inductive Cursor where
  | posts (rs : List Post)
  | count (n : Nat)
  | probe (found : Bool)
  | empty
  deriving Repr, DecidableEq

/-- Semantics of the five SQL statements the application issues, run
against an open connection.  A lower-level store fault (`execErr`) raises a
`sqlite3.DatabaseError`; an absent `posts` table raises
`sqlite3.OperationalError "no such table: posts"`. -/
def runStmt (q : Stmt) (conn : Conn) : Except PyErr (Cursor × Conn) :=
  match conn.execErr with
  | some msg => .error (.databaseError msg)
  | none =>
    match conn.pending.table with
    | none => .error (.operationalError "no such table: posts")
    | some rows =>
      if q.sql = "SELECT * FROM posts WHERE id = ?" then
        match q.params with
        | [.int p] => .ok (.posts (rows.filter (fun r => r.id == p)), conn)
        | _ => .error (.operationalError "incorrect number of bindings supplied")
      else if q.sql = "SELECT COUNT(*) FROM posts" then
        .ok (.count rows.length, conn)
      else if q.sql = "SELECT * FROM posts" then
        .ok (.posts rows, conn)
      else if q.sql = "SELECT 1 FROM posts LIMIT 1" then
        .ok (.probe (!rows.isEmpty), conn)
      else if q.sql = "INSERT INTO posts (title, content) VALUES (?, ?)" then
        match q.params with
        | [.text t, .text c] =>
          .ok (.empty,
            { conn with pending :=
                ⟨some (rows ++ [⟨conn.pending.nextId, t, c⟩]), conn.pending.nextId + 1⟩ })
        | _ => .error (.operationalError "incorrect number of bindings supplied")
      else .error (.operationalError "near: syntax error")

/-- The wrapper object: its only state is the process-wide query counter
`db_connection_count` (initialised to `0` in `__init__`). -/
structure DatabaseWrapper where
  db_connection_count : Nat
  deriving Repr, DecidableEq

/-- `DatabaseWrapper.execute(self, conn, sql, params)`: increments
`self.db_connection_count` by one, then runs the statement; a statement
failure propagates to the caller, but the increment has already happened. -/
def DatabaseWrapper.execute (db : DatabaseWrapper) (conn : Conn)
    (sql : String) (params : List SqlParam) :
    DatabaseWrapper × Except PyErr Cursor × Conn :=
  (⟨db.db_connection_count + 1⟩,
    match runStmt ⟨sql, params⟩ conn with
    | .ok (cur, conn) => (.ok cur, conn)
    | .error e => (.error e, conn))

/-- The outcome of running a body inside `with db.get_db_connection() as conn`:
the wrapper and store afterwards, the body's value or the propagated
exception, and whether `connection.close()` completed on an actually opened
connection. -/
structure DbResult (α : Type) where
  db : DatabaseWrapper
  store : Store
  result : Except PyErr α
  closed : Bool
  deriving Repr

/-- `get_db_connection` used as a context manager around `body`.  The source
places `sqlite3.connect` inside the `try`, with `connection.close()` in the
`finally`: when the connect itself fails, the `finally` clause touches the
unbound local `connection` and an `UnboundLocalError` propagates in place of
the open error.  When the connect succeeds, the connection is closed on every
exit path of the body (normal value or exception), and only committed effects
survive the close. -/
def get_db_connection {α : Type} (db : DatabaseWrapper) (s : Store)
    (body : DatabaseWrapper → Conn → DatabaseWrapper × Except PyErr α × Conn) :
    DbResult α :=
  match s.connectErr with
  | some _ => ⟨db, s, .error .unboundLocalError, false⟩
  | none =>
    let r := body db ⟨s.execErr, s.file, s.file⟩
    ⟨r.1, { s with file := r.2.2.committed }, r.2.1, true⟩

/-- `cursor.fetchone()` on a row cursor: first row or the `None` sentinel. -/
def fetchone : Cursor → Option Post
  | .posts rs => rs.head?
  | _ => none

/-- `cursor.fetchall()` on a row cursor. -/
def fetchall : Cursor → List Post
  | .posts rs => rs
  | _ => []

/-- The statement `get_post` issues: the SQL text is a fixed string with a
`?` placeholder, and the id travels only in the bound parameter tuple. -/
def get_post_stmt (post_id : Nat) : Stmt :=
  ⟨"SELECT * FROM posts WHERE id = ?", [.int post_id]⟩

/-- `get_post(post_id)`: single-row lookup by primary key through the
wrapper, `fetchone`d; `None` is the not-found sentinel. -/
def get_post (db : DatabaseWrapper) (s : Store) (post_id : Nat) :
    DbResult (Option Post) :=
  get_db_connection db s (fun db conn =>
    match db.execute conn (get_post_stmt post_id).sql (get_post_stmt post_id).params with
    | (db, .ok cur, conn) => (db, .ok (fetchone cur), conn)
    | (db, .error e, conn) => (db, .error e, conn))

/-- `get_post_count()`: `SELECT COUNT(*) FROM posts`, then `fetchone()[0]`. -/
def get_post_count (db : DatabaseWrapper) (s : Store) : DbResult Nat :=
  get_db_connection db s (fun db conn =>
    match db.execute conn "SELECT COUNT(*) FROM posts" [] with
    | (db, .ok (.count n), conn) => (db, .ok n, conn)
    | (db, .ok _, conn) => (db, .error (.databaseError "unexpected cursor"), conn)
    | (db, .error e, conn) => (db, .error e, conn))

/-- The responses the handlers produce: a redirect, a rendered template
(with any flashed messages), the post-list and single-post pages, and the
two JSON payloads of `/healthz` and `/metrics`. -/
inductive Response where
  | redirectTo (location : String)
  | page (status : Nat) (template : String) (flashes : List String)
  | postsPage (status : Nat) (template : String) (posts : List Post)
  | postPage (status : Nat) (template : String) (p : Post)
  | healthJson (status : Nat) (result : String)
  | metricsJson (status : Nat) (dbConnectionCount : Nat) (postCount : Nat)
  deriving Repr, DecidableEq

/-- What a request handler leaves behind: wrapper, store, and either a
response or an uncaught exception (rendered by Flask as a generic error). -/
structure HandlerResult where
  db : DatabaseWrapper
  store : Store
  response : Except PyErr Response
  deriving Repr

/-- HTTP method of a `/create` request. -/
inductive Method where
  | get
  | post
  deriving Repr, DecidableEq

/-- The submitted form of a `POST /create`: `none` models the key being
absent from `request.form` (its lookup raises a `KeyError`). -/
structure CreateForm where
  title : Option String
  content : Option String
  deriving Repr, DecidableEq

/-- Handler for `GET /`: fetch all posts, render the list view. -/
def index (db : DatabaseWrapper) (s : Store) : HandlerResult :=
  let r := get_db_connection db s (fun db conn =>
    match db.execute conn "SELECT * FROM posts" [] with
    | (db, .ok cur, conn) =>
      (db, .ok (Response.postsPage 200 "index.html" (fetchall cur)), conn)
    | (db, .error e, conn) => (db, .error e, conn))
  ⟨r.db, r.store, r.result⟩

/-- Handler for `GET /<post_id>`: 404 page on the sentinel, detail view
otherwise. -/
def post (db : DatabaseWrapper) (s : Store) (post_id : Nat) : HandlerResult :=
  let r := get_post db s post_id
  match r.result with
  | .ok none => ⟨r.db, r.store, .ok (.page 404 "404.html" [])⟩
  | .ok (some p) => ⟨r.db, r.store, .ok (.postPage 200 "post.html" p)⟩
  | .error e => ⟨r.db, r.store, .error e⟩

/-- Handler for `GET /about`: static render. -/
def about : Response :=
  .page 200 "about.html" []

/-- Handler for `/create`.  On `POST`, `request.form['title']` and
`request.form['content']` are looked up first (a missing key raises
`KeyError` before any validation); an empty title flashes
`'Title is required!'` and re-renders the form; otherwise the row is
inserted, committed, and the response redirects to the index view (`/`). -/
def create (db : DatabaseWrapper) (s : Store) (method : Method)
    (form : CreateForm) : HandlerResult :=
  match method with
  | .get => ⟨db, s, .ok (.page 200 "create.html" [])⟩
  | .post =>
    match form.title with
    | none => ⟨db, s, .error (.keyError "title")⟩
    | some title =>
      match form.content with
      | none => ⟨db, s, .error (.keyError "content")⟩
      | some content =>
        if title = "" then
          ⟨db, s, .ok (.page 200 "create.html" ["Title is required!"])⟩
        else
          let r := get_db_connection db s (fun db conn =>
            match db.execute conn "INSERT INTO posts (title, content) VALUES (?, ?)"
                [.text title, .text content] with
            | (db, .ok _, conn) =>
              (db, .ok (Response.redirectTo "/"), conn.commit)
            | (db, .error e, conn) => (db, .error e, conn))
          ⟨r.db, r.store, r.result⟩

/-- Handler for `GET /healthz`: probe `SELECT 1 FROM posts LIMIT 1`;
`except sqlite3.OperationalError` converts exactly that class to the
500 unhealthy JSON; every other exception propagates uncaught. -/
def healthz (db : DatabaseWrapper) (s : Store) : HandlerResult :=
  let r := get_db_connection db s (fun db conn =>
    match db.execute conn "SELECT 1 FROM posts LIMIT 1" [] with
    | (db, .ok _, conn) =>
      (db, .ok (Response.healthJson 200 "OK - healthy"), conn)
    | (db, .error e, conn) => (db, .error e, conn))
  match r.result with
  | .ok resp => ⟨r.db, r.store, .ok resp⟩
  | .error (.operationalError _) =>
    ⟨r.db, r.store, .ok (.healthJson 500 "ERROR - unhealthy")⟩
  | .error e => ⟨r.db, r.store, .error e⟩

/-- Handler for `GET /metrics`: runs `get_post_count()` (itself one counted
query), then reads `db.db_connection_count` and answers 200 with both
values; a failure of the count query is not caught. -/
def metrics_endpoint (db : DatabaseWrapper) (s : Store) : HandlerResult :=
  let r := get_post_count db s
  match r.result with
  | .ok n =>
    ⟨r.db, r.store, .ok (.metricsJson 200 r.db.db_connection_count n)⟩
  | .error e => ⟨r.db, r.store, .error e⟩

/-- A sequence of statements pushed through `DatabaseWrapper.execute` on one
connection, stopping at the first propagated failure (as straight-line
Python would). -/
def runStmts (db : DatabaseWrapper) (conn : Conn) :
    List Stmt → DatabaseWrapper × Conn × Option PyErr
  | [] => (db, conn, none)
  | q :: qs =>
    match db.execute conn q.sql q.params with
    | (db, .ok _, conn) => runStmts db conn qs
    | (db, .error e, conn) => (db, conn, some e)

/-- A healthy store: `posts` table present with one row. -/
def storeOneRow : Store := ⟨none, none, ⟨some [⟨1, "Hello", "World"⟩], 2⟩⟩

/-- A healthy store with an empty `posts` table. -/
def storeEmpty : Store := ⟨none, none, ⟨some [], 1⟩⟩

/-- A reachable store whose `posts` table is absent. -/
def storeNoTable : Store := ⟨none, none, ⟨none, 1⟩⟩

/-- A store where `sqlite3.connect('database.db')` itself fails. -/
def storeConnectFail : Store := ⟨some "unable to open database file", none, ⟨some [], 1⟩⟩

/-- A store whose statements fail with a lower-level `sqlite3.DatabaseError`
that is not a `sqlite3.OperationalError`. -/
def storeCorrupt : Store := ⟨none, some "database disk image is malformed", ⟨some [], 1⟩⟩

/-- An open connection onto the empty healthy store. -/
def connEmpty : Conn := ⟨none, ⟨some [], 1⟩, ⟨some [], 1⟩⟩

/-- An open connection onto a store without the `posts` table. -/
def connNoTable : Conn := ⟨none, ⟨none, 1⟩, ⟨none, 1⟩⟩

/-! ## Helper lemmas -/

theorem head?_filter_eq_find? {α : Type} (f : α → Bool) (l : List α) :
    (l.filter f).head? = l.find? f := by
  induction l with
  | nil => rfl
  | cons a l ih =>
    by_cases h : f a
    · simp [List.filter_cons, List.find?_cons, h]
    · simp [List.filter_cons, List.find?_cons, h, ih]

theorem runStmts_ok_count (qs : List Stmt) :
    ∀ (db : DatabaseWrapper) (conn : Conn) (db' : DatabaseWrapper) (conn' : Conn),
    runStmts db conn qs = (db', conn', none) →
    db'.db_connection_count = db.db_connection_count + qs.length := by
  induction qs with
  | nil =>
    intro db conn db' conn' h
    simp only [runStmts, Prod.mk.injEq] at h
    simp [← h.1]
  | cons q qs ih =>
    intro db conn db' conn' h
    rw [runStmts] at h
    rcases hr : runStmt ⟨q.sql, q.params⟩ conn with e | ⟨cur, conn₂⟩ <;>
      simp only [DatabaseWrapper.execute, hr] at h
    · simp at h
    · have := ih _ _ _ _ h
      simp only [List.length_cons]
      simp only [DatabaseWrapper.db_connection_count] at this
      omega

/-! ## Claims -/

/-- Claim C1: every call to `DatabaseWrapper.execute` increments
`db_connection_count` by exactly one (whatever the statement and whatever
its outcome), and a sequence of `N` statements all pushed through `execute`
starting from the initial counter `0` leaves the counter at exactly `N`. -/
theorem execute_counter_exact :
    (∀ (db : DatabaseWrapper) (conn : Conn) (sql : String) (params : List SqlParam),
      (db.execute conn sql params).1.db_connection_count = db.db_connection_count + 1) ∧
    (∀ (qs : List Stmt) (conn : Conn) (db' : DatabaseWrapper) (conn' : Conn),
      runStmts ⟨0⟩ conn qs = (db', conn', none) →
      db'.db_connection_count = qs.length) := by
  constructor
  · intro db conn sql params
    rfl
  · intro qs conn db' conn' h
    simpa using runStmts_ok_count qs ⟨0⟩ conn db' conn' h

/-- Claim C1 witness: a concrete two-statement run from counter `0` ends at
counter `2`, and one concrete call bumps `5` to `6`. -/
theorem execute_counter_exact_witness :
    (runStmts ⟨0⟩ connEmpty
      [⟨"SELECT COUNT(*) FROM posts", []⟩, ⟨"SELECT 1 FROM posts LIMIT 1", []⟩]).1.db_connection_count = 2 ∧
    ((⟨5⟩ : DatabaseWrapper).execute connEmpty "SELECT COUNT(*) FROM posts" []).1.db_connection_count = 6 := by
  constructor
  · exact execute_counter_exact.2
      [⟨"SELECT COUNT(*) FROM posts", []⟩, ⟨"SELECT 1 FROM posts LIMIT 1", []⟩]
      connEmpty ⟨2⟩ connEmpty (by decide)
  · exact execute_counter_exact.1 ⟨5⟩ connEmpty "SELECT COUNT(*) FROM posts" []

/-- Claim C9: the counter increment happens before the statement runs, so a
failing statement (here the health probe against a missing `posts` table)
still bumps the counter by one while the `OperationalError` propagates. -/
theorem execute_increments_before_failure (db : DatabaseWrapper) (conn : Conn)
    (hc : conn.execErr = none) (ht : conn.pending.table = none) :
    db.execute conn "SELECT 1 FROM posts LIMIT 1" [] =
      (⟨db.db_connection_count + 1⟩,
        .error (.operationalError "no such table: posts"), conn) ∧
    (∀ (sql : String) (params : List SqlParam),
      (db.execute conn sql params).1.db_connection_count = db.db_connection_count + 1) := by
  refine ⟨?_, fun sql params => rfl⟩
  simp [DatabaseWrapper.execute, runStmt, hc, ht]

/-- Claim C9 witness: the failing probe on a concrete table-less connection
returns the counter bumped from `0` to `1` alongside the propagated error. -/
theorem execute_increments_before_failure_witness :
    (⟨0⟩ : DatabaseWrapper).execute connNoTable "SELECT 1 FROM posts LIMIT 1" [] =
      (⟨1⟩, .error (.operationalError "no such table: posts"), connNoTable) :=
  (execute_increments_before_failure ⟨0⟩ connNoTable rfl rfl).1

theorem find?_id_eq_of_mem_nodup {p : Nat} {w : Post} (rows : List Post)
    (hw : w ∈ rows) (hid : w.id = p) (hnd : (rows.map Post.id).Nodup) :
    rows.find? (fun r => r.id == p) = some w := by
  induction rows with
  | nil => cases hw
  | cons a l ih =>
    simp only [List.map_cons, List.nodup_cons] at hnd
    rcases List.mem_cons.mp hw with rfl | hw'
    · simp [List.find?_cons, hid]
    · have ha : (a.id == p) = false := by
        rw [beq_eq_false_iff_ne]
        intro hap
        exact hnd.1 (by rw [hap, ← hid]; exact List.mem_map_of_mem Post.id hw')
      simp [List.find?_cons, ha, ih hw' hnd.2]

/-- Claim C2: `/healthz` answers 200 `OK - healthy` whenever the `posts`
table exists and is queryable, 500 `ERROR - unhealthy` when the table is
absent (the `OperationalError` is caught), while lower-level failures —
a failed `sqlite3.connect` (surfacing as the `UnboundLocalError` of the
context manager's cleanup) or a non-Operational `DatabaseError` — propagate
out of the handler uncaught. -/
theorem healthz_spec (db : DatabaseWrapper) (s : Store) :
    (∀ rows, s.connectErr = none → s.execErr = none → s.file.table = some rows →
      (healthz db s).response = .ok (.healthJson 200 "OK - healthy")) ∧
    (s.connectErr = none → s.execErr = none → s.file.table = none →
      (healthz db s).response = .ok (.healthJson 500 "ERROR - unhealthy")) ∧
    (∀ msg, s.connectErr = some msg →
      (healthz db s).response = .error .unboundLocalError) ∧
    (∀ msg, s.connectErr = none → s.execErr = some msg →
      (healthz db s).response = .error (.databaseError msg)) := by
  refine ⟨?_, ?_, ?_, ?_⟩
  · intro rows h1 h2 h3
    simp [healthz, get_db_connection, DatabaseWrapper.execute, runStmt, h1, h2, h3]
  · intro h1 h2 h3
    simp [healthz, get_db_connection, DatabaseWrapper.execute, runStmt, h1, h2, h3]
  · intro msg h1
    simp [healthz, get_db_connection, h1]
  · intro msg h1 h2
    simp [healthz, get_db_connection, DatabaseWrapper.execute, runStmt, h1, h2]

/-- Claim C2 witness: the five store shapes, concretely. -/
theorem healthz_spec_witness :
    (healthz ⟨0⟩ storeOneRow).response = .ok (.healthJson 200 "OK - healthy") ∧
    (healthz ⟨0⟩ storeEmpty).response = .ok (.healthJson 200 "OK - healthy") ∧
    (healthz ⟨0⟩ storeNoTable).response = .ok (.healthJson 500 "ERROR - unhealthy") ∧
    (healthz ⟨0⟩ storeConnectFail).response = .error .unboundLocalError ∧
    (healthz ⟨0⟩ storeCorrupt).response = .error (.databaseError "database disk image is malformed") :=
  ⟨(healthz_spec ⟨0⟩ storeOneRow).1 _ rfl rfl rfl,
   (healthz_spec ⟨0⟩ storeEmpty).1 _ rfl rfl rfl,
   (healthz_spec ⟨0⟩ storeNoTable).2.1 rfl rfl rfl,
   (healthz_spec ⟨0⟩ storeConnectFail).2.2.1 _ rfl,
   (healthz_spec ⟨0⟩ storeCorrupt).2.2.2 _ rfl rfl⟩

/-- Claim C3 (code defect): when the connect succeeds, `connection.close()`
runs on every exit path of the body (last conjunct, for any wrapper, store
contents and body); but when `sqlite3.connect` itself fails, the `finally`
clause touches the unbound local `connection`, so what propagates is an
`UnboundLocalError`, not the open failure itself. -/
theorem get_db_connection_exit_paths :
    (get_db_connection ⟨0⟩ storeConnectFail
      (fun db conn => (db, .ok (0 : Nat), conn))).result = .error .unboundLocalError ∧
    (get_db_connection ⟨0⟩ storeConnectFail
      (fun db conn => (db, .ok (0 : Nat), conn))).result
        ≠ .error (.operationalError "unable to open database file") ∧
    (get_db_connection ⟨0⟩ storeConnectFail
      (fun db conn => (db, .ok (0 : Nat), conn))).closed = false ∧
    (∀ (α : Type) (db : DatabaseWrapper) (ee : Option String) (f : DbFile)
      (body : DatabaseWrapper → Conn → DatabaseWrapper × Except PyErr α × Conn),
      (get_db_connection db ⟨none, ee, f⟩ body).closed = true) := by
  refine ⟨rfl, fun h => PyErr.noConfusion (Except.error.inj h), rfl, ?_⟩
  intro α db ee f body
  rfl

/-- Claim C3 witness: the always-closed conjunct at a concrete wrapper,
store and body. -/
theorem get_db_connection_exit_paths_witness :
    (get_db_connection ⟨3⟩ ⟨none, none, ⟨some [], 1⟩⟩
      (fun db conn =>
        (db, (.error (.databaseError "boom") : Except PyErr PUnit), conn))).closed = true :=
  get_db_connection_exit_paths.2.2.2 PUnit ⟨3⟩ none ⟨some [], 1⟩ _

/-- Claim C4: on a live table, `get_post` returns the first row whose id
matches (the matching row, when ids are unique), the `None` sentinel — and
no error — when no row matches; and the id travels only as a bound
parameter, the SQL text being the same for every id. -/
theorem get_post_spec (db : DatabaseWrapper) (s : Store) (rows : List Post) (p : Nat)
    (hc : s.connectErr = none) (he : s.execErr = none) (ht : s.file.table = some rows) :
    (get_post db s p).result = .ok (rows.find? (fun r => r.id == p)) ∧
    ((∀ r ∈ rows, r.id ≠ p) → (get_post db s p).result = .ok none) ∧
    (∀ w ∈ rows, w.id = p → (rows.map Post.id).Nodup →
      (get_post db s p).result = .ok (some w)) ∧
    (∀ q₁ q₂ : Nat, (get_post_stmt q₁).sql = (get_post_stmt q₂).sql) ∧
    (get_post_stmt p).params = [.int p] := by
  have hmain : (get_post db s p).result = .ok (rows.find? (fun r => r.id == p)) := by
    simp [get_post, get_post_stmt, get_db_connection, DatabaseWrapper.execute, runStmt,
      fetchone, hc, he, ht, head?_filter_eq_find?]
  refine ⟨hmain, ?_, ?_, fun q₁ q₂ => rfl, rfl⟩
  · intro hnone
    rw [hmain, List.find?_eq_none.mpr]
    intro r hr
    simpa using hnone r hr
  · intro w hw hid hnd
    rw [hmain, find?_id_eq_of_mem_nodup rows hw hid hnd]

/-- Claim C4 witness: on the one-row store, id 1 is found and id 2 yields
the sentinel. -/
theorem get_post_spec_witness :
    (get_post ⟨0⟩ storeOneRow 1).result = .ok (some ⟨1, "Hello", "World"⟩) ∧
    (get_post ⟨0⟩ storeOneRow 2).result = .ok none :=
  ⟨(get_post_spec ⟨0⟩ storeOneRow [⟨1, "Hello", "World"⟩] 1 rfl rfl rfl).2.2.1
      ⟨1, "Hello", "World"⟩ (by decide) rfl (by decide),
   (get_post_spec ⟨0⟩ storeOneRow [⟨1, "Hello", "World"⟩] 2 rfl rfl rfl).2.1
      (by decide)⟩

/-- Claim C5: a `POST /create` with a non-empty title inserts exactly one
row carrying that title and content, commits it, redirects to the index
view `/`, and bumps `get_post_count()` by exactly one over its value before
the request. -/
theorem create_valid_spec (db : DatabaseWrapper) (s : Store) (rows : List Post)
    (t c : String) (hT : t ≠ "") (hc : s.connectErr = none) (he : s.execErr = none)
    (ht : s.file.table = some rows) :
    (create db s .post ⟨some t, some c⟩).response = .ok (.redirectTo "/") ∧
    (create db s .post ⟨some t, some c⟩).store.file.table
      = some (rows ++ [⟨s.file.nextId, t, c⟩]) ∧
    (get_post_count db s).result = .ok rows.length ∧
    (get_post_count (create db s .post ⟨some t, some c⟩).db
      (create db s .post ⟨some t, some c⟩).store).result = .ok (rows.length + 1) := by
  refine ⟨?_, ?_, ?_, ?_⟩ <;>
    simp [create, get_db_connection, DatabaseWrapper.execute, runStmt, Conn.commit,
      get_post_count, hT, hc, he, ht]

/-- Claim C5 witness: creating `Hello`/`World` on the empty store redirects
to `/` and takes the count from `0` to `1`. -/
theorem create_valid_spec_witness :
    (create ⟨0⟩ storeEmpty .post ⟨some "Hello", some "World"⟩).response
      = .ok (.redirectTo "/") ∧
    (get_post_count ⟨0⟩ storeEmpty).result = .ok 0 ∧
    (get_post_count (create ⟨0⟩ storeEmpty .post ⟨some "Hello", some "World"⟩).db
      (create ⟨0⟩ storeEmpty .post ⟨some "Hello", some "World"⟩).store).result = .ok 1 := by
  have h := create_valid_spec ⟨0⟩ storeEmpty [] "Hello" "World" (by decide) rfl rfl rfl
  exact ⟨h.1, h.2.2.1, h.2.2.2⟩

/-- Claim C6: a `POST /create` with an empty (but present) title leaves the
wrapper and the store untouched, re-renders the form with the flashed
validation message `Title is required!`, is not a redirect, and leaves
`get_post_count()` unchanged. -/
theorem create_empty_title_spec (db : DatabaseWrapper) (s : Store) (c : String) :
    create db s .post ⟨some "", some c⟩ =
      ⟨db, s, .ok (.page 200 "create.html" ["Title is required!"])⟩ ∧
    (∀ loc, (create db s .post ⟨some "", some c⟩).response ≠ .ok (.redirectTo loc)) ∧
    (get_post_count (create db s .post ⟨some "", some c⟩).db
      (create db s .post ⟨some "", some c⟩).store).result = (get_post_count db s).result := by
  refine ⟨rfl, ?_, rfl⟩
  intro loc h
  exact Response.noConfusion (Except.ok.inj h)

/-- Claim C6 witness: the empty-title request on the concrete one-row
store, with the non-redirect conjunct instantiated at `/`. -/
theorem create_empty_title_spec_witness :
    create ⟨0⟩ storeOneRow .post ⟨some "", some "World"⟩ =
      ⟨⟨0⟩, storeOneRow, .ok (.page 200 "create.html" ["Title is required!"])⟩ ∧
    (create ⟨0⟩ storeOneRow .post ⟨some "", some "World"⟩).response
      ≠ .ok (.redirectTo "/") :=
  ⟨(create_empty_title_spec ⟨0⟩ storeOneRow "World").1,
   (create_empty_title_spec ⟨0⟩ storeOneRow "World").2.1 "/"⟩

/-- Claim C7: on a live table `get_post_count()` returns exactly the number
of rows (a natural number, hence never negative), in particular `0` — and
no error — for the empty table; the count leaves the store untouched; and a
committed insert (a valid create) is reflected by the next count. -/
theorem get_post_count_spec (db : DatabaseWrapper) (s : Store) (rows : List Post)
    (hc : s.connectErr = none) (he : s.execErr = none) (ht : s.file.table = some rows) :
    (get_post_count db s).result = .ok rows.length ∧
    (rows = [] → (get_post_count db s).result = .ok 0) ∧
    (get_post_count db s).store = s ∧
    (∀ t c : String, t ≠ "" →
      (get_post_count (create db s .post ⟨some t, some c⟩).db
        (create db s .post ⟨some t, some c⟩).store).result = .ok (rows.length + 1)) := by
  obtain ⟨ce, ee, f⟩ := s
  obtain ⟨tb, ni⟩ := f
  simp only at hc he ht
  subst hc he ht
  refine ⟨?_, ?_, ?_, ?_⟩
  · simp [get_post_count, get_db_connection, DatabaseWrapper.execute, runStmt]
  · intro hrows
    subst hrows
    simp [get_post_count, get_db_connection, DatabaseWrapper.execute, runStmt]
  · simp [get_post_count, get_db_connection, DatabaseWrapper.execute, runStmt]
  · intro t c hT
    simp [create, get_post_count, get_db_connection, DatabaseWrapper.execute, runStmt,
      Conn.commit, hT]

/-- Claim C7 witness: count `0` on the empty store, `1` on the one-row
store, store unchanged, and `1` after a valid create on the empty store. -/
theorem get_post_count_spec_witness :
    (get_post_count ⟨0⟩ storeEmpty).result = .ok 0 ∧
    (get_post_count ⟨0⟩ storeOneRow).result = .ok 1 ∧
    (get_post_count ⟨0⟩ storeEmpty).store = storeEmpty ∧
    (get_post_count (create ⟨0⟩ storeEmpty .post ⟨some "A", some "B"⟩).db
      (create ⟨0⟩ storeEmpty .post ⟨some "A", some "B"⟩).store).result = .ok 1 := by
  have h0 := get_post_count_spec ⟨0⟩ storeEmpty [] rfl rfl rfl
  have h1 := get_post_count_spec ⟨0⟩ storeOneRow [⟨1, "Hello", "World"⟩] rfl rfl rfl
  exact ⟨h0.2.1 rfl, h1.1, h0.2.2.1, h0.2.2.2 "A" "B" (by decide)⟩

/-- Claim C8 counterexample: the claim quantifies over every store state,
but with the `posts` table absent `/metrics` does not answer 200 — the
count query's `OperationalError` propagates out of the handler uncaught. -/
theorem metrics_endpoint_table_absent :
    (metrics_endpoint ⟨0⟩ storeNoTable).response
      = .error (.operationalError "no such table: posts") := rfl

/-- Claim C8 (amended): whenever the `posts` table exists and the store is
fault-free, `/metrics` answers 200 with exactly the counter value current
at reply time (the entry value plus the metrics request's own counted
query) and the current row count — for every counter value — and leaves the
store untouched; when the count query fails, its error propagates. -/
theorem metrics_endpoint_spec (db : DatabaseWrapper) (s : Store) (rows : List Post)
    (hc : s.connectErr = none) (he : s.execErr = none) (ht : s.file.table = some rows) :
    (metrics_endpoint db s).response
      = .ok (.metricsJson 200 (db.db_connection_count + 1) rows.length) ∧
    (metrics_endpoint db s).store = s := by
  obtain ⟨ce, ee, f⟩ := s
  obtain ⟨tb, ni⟩ := f
  simp only at hc he ht
  subst hc he ht
  constructor <;>
    simp [metrics_endpoint, get_post_count, get_db_connection, DatabaseWrapper.execute,
      runStmt]

/-- Claim C8 witness: on the one-row store with counter `7`, the payload
reports counter `8` and post count `1`. -/
theorem metrics_endpoint_spec_witness :
    (metrics_endpoint ⟨7⟩ storeOneRow).response = .ok (.metricsJson 200 8 1) :=
  (metrics_endpoint_spec ⟨7⟩ storeOneRow [⟨1, "Hello", "World"⟩] rfl rfl rfl).1

/-- Claim C10: a `POST /create` whose form lacks the `title` key (or, with
a title present, the `content` key) raises the corresponding `KeyError`
before any validation or insert — wrapper, store and counter are exactly as
before — instead of the flashed re-render. -/
theorem create_missing_key_spec (db : DatabaseWrapper) (s : Store) :
    (∀ c : Option String,
      create db s .post ⟨none, c⟩ = ⟨db, s, .error (.keyError "title")⟩) ∧
    (∀ t : String,
      create db s .post ⟨some t, none⟩ = ⟨db, s, .error (.keyError "content")⟩) :=
  ⟨fun _ => rfl, fun _ => rfl⟩

/-- Claim C10 witness: both missing-key shapes on the concrete one-row
store (note the second has an empty title, yet raises before validation). -/
theorem create_missing_key_spec_witness :
    create ⟨0⟩ storeOneRow .post ⟨none, some "World"⟩
      = ⟨⟨0⟩, storeOneRow, .error (.keyError "title")⟩ ∧
    create ⟨0⟩ storeOneRow .post ⟨some "", none⟩
      = ⟨⟨0⟩, storeOneRow, .error (.keyError "content")⟩ :=
  ⟨(create_missing_key_spec ⟨0⟩ storeOneRow).1 (some "World"),
   (create_missing_key_spec ⟨0⟩ storeOneRow).2 ""⟩

end TechTrends
